import Mathlib

/-!
Shallow embedding of the GB-Backend order pricing engine and order
orchestration (src/utils.py `calculate_order_pricing`,
src/routers.py `price_preview`, `create_order`, `verify_payment`).

Python floats carrying currency amounts are modelled as rationals;
`round(x, 2)` is modelled as rounding to an integer number of paise,
half to even.  Fallible Python code (dictionary access, `.single()`
queries, DB writes, the payment gateway) is modelled with `Except`
and an explicit environment of effect outcomes.
-/

/-- Round a rational to the nearest integer, ties to even. -/
def roundPaise (s : ℚ) : ℤ :=
  if s - ⌊s⌋ < 1 / 2 then ⌊s⌋
  else if 1 / 2 < s - ⌊s⌋ then ⌊s⌋ + 1
  else if ⌊s⌋ % 2 = 0 then ⌊s⌋ else ⌊s⌋ + 1

/-- Python `round(x, 2)` on rationals: round `100 * x` to the nearest
integer (ties to even) and divide by `100`. -/
def round2 (q : ℚ) : ℚ := (roundPaise (q * 100) : ℚ) / 100

/-- A row of the `offers` table joined with its `offer_scope`
(src/utils.py lines 41-56). -/
structure Offer where
  offer_id : ℕ
  discount_type : String
  discount_value : ℚ
  min_quantity : ℕ
  scope_type : String
  scope_id : ℕ
  is_active : Bool
deriving DecidableEq

/-- One entry of the `validated_items` list handed to
`calculate_order_pricing`.  The dictionaries built by `price_preview`
(src/routers.py lines 375-383) and by `create_order` (lines 525-536)
do not contain a `"brand_id"` key, so the field is an `Option`:
`none` models the absent key. -/
structure CartItem where
  brand_id : Option ℕ
  variant_id : ℕ
  product_id : ℕ
  quantity : ℕ
  price_per_unit : ℚ
  subtotal : ℚ
  new_stock : ℕ := 0
  supplier_id : Option String := none
  supplier_product_id : Option String := none
deriving DecidableEq

/-- The per-brand record held in `brand_map` (src/utils.py lines 26-32). -/
structure BrandData where
  subtotal : ℚ
  quantity : ℕ
  discount : ℚ
  offer : Option Offer
deriving DecidableEq

/-- Add one item's subtotal and quantity into the brand map, preserving
insertion order of brand keys (src/utils.py lines 26-35). -/
def insertBrand (m : List (ℕ × BrandData)) (b : ℕ) (sub : ℚ) (q : ℕ) :
    List (ℕ × BrandData) :=
  match m with
  | [] => [(b, { subtotal := sub, quantity := q, discount := 0, offer := none })]
  | (k, d) :: rest =>
    if k = b then
      (k, { d with subtotal := d.subtotal + sub, quantity := d.quantity + q }) :: rest
    else
      (k, d) :: insertBrand rest b sub q

/-- The loop of src/utils.py lines 23-35 with accumulator `m`. -/
def groupByBrandAux (m : List (ℕ × BrandData)) :
    List CartItem → Except String (List (ℕ × BrandData))
  | [] => Except.ok m
  | item :: rest =>
    match item.brand_id with
    | none => Except.error "KeyError: brand_id"
    | some b => groupByBrandAux (insertBrand m b item.subtotal item.quantity) rest

/-- The `brand_map` construction (src/utils.py lines 21-35).  Reading
`item["brand_id"]` raises `KeyError` when the key is absent. -/
def groupByBrand (items : List CartItem) : Except String (List (ℕ × BrandData)) :=
  groupByBrandAux [] items

/-- The `offers` query of src/utils.py lines 41-56: scope type `brand`,
matching scope id, active, and `min_quantity ≤` the group quantity. -/
def fetchBrandOffers (offers : List Offer) (brandId : ℕ) (qty : ℕ) : List Offer :=
  offers.filter fun o =>
    decide (o.scope_type = "brand" ∧ o.scope_id = brandId ∧
            o.is_active = true ∧ o.min_quantity ≤ qty)

/-- Python `max(l, key=...)` keeps the first element with the maximal key:
replace the accumulator only on a strictly larger `discount_value`. -/
def pickMaxOffer (a : Offer) (l : List Offer) : Offer :=
  l.foldl (fun b o => if b.discount_value < o.discount_value then o else b) a

/-- Python `max(offer_res.data, key=lambda o: o["discount_value"])`, or `none`
on an empty result (guarded by the `continue` at src/utils.py line 58). -/
def bestOffer : List Offer → Option Offer
  | [] => none
  | o :: os => some (pickMaxOffer o os)

/-- Offer application for one brand group (src/utils.py lines 58-75):
no eligible offer leaves the group unchanged; otherwise the best offer's
discount is `round(subtotal * value/100, 2)` for `percentage` type and
`round(value, 2)` for any other type. -/
def applyOffer (offers : List Offer) (b : ℕ) (d : BrandData) : BrandData :=
  match bestOffer (fetchBrandOffers offers b d.quantity) with
  | none => d
  | some best =>
    let disc :=
      if best.discount_type = "percentage" then
        round2 (d.subtotal * (best.discount_value / 100))
      else
        round2 best.discount_value
    { d with discount := disc, offer := some best }

/-- The dictionary returned by `calculate_order_pricing`
(src/utils.py lines 93-101). -/
structure PricingResult where
  subtotal : ℚ
  discount : ℚ
  gst : ℚ
  shipping_fee : ℚ
  cod_fee : ℚ
  total : ℚ
  brand_breakdown : List (ℕ × BrandData)
deriving DecidableEq

/-- Final-total arithmetic of src/utils.py lines 78-101, after the brand
map has been built and offers applied. -/
def finishTotals (payment_method : String) (itemsSubtotal : ℚ)
    (total_discount : ℚ) (breakdown : List (ℕ × BrandData)) : PricingResult :=
  let subtotal := round2 itemsSubtotal
  let discounted := round2 (subtotal - total_discount)
  let gst_amount := round2 (discounted * (5 / 100))
  let final := round2 (discounted + gst_amount)
  let shipping : ℚ := if final < 499 then 49 else 0
  let grand := round2 (final + shipping)
  if payment_method = "COD" then
    let cod_fee := max 40 (round2 (grand * (2 / 100)))
    { subtotal := subtotal, discount := round2 total_discount,
      gst := gst_amount, shipping_fee := shipping, cod_fee := cod_fee,
      total := round2 (grand + cod_fee), brand_breakdown := breakdown }
  else
    { subtotal := subtotal, discount := round2 total_discount,
      gst := gst_amount, shipping_fee := shipping, cod_fee := 0,
      total := grand, brand_breakdown := breakdown }

/-- Steps 2-3 of src/utils.py `calculate_order_pricing` once the brand
map `bm0` has been built: apply the best offer per brand, sum the
discounts, and compute the final totals. -/
def priceFromGroups (payment_method : String) (offers : List Offer)
    (validated_items : List CartItem) (bm0 : List (ℕ × BrandData)) :
    PricingResult :=
  finishTotals payment_method ((validated_items.map (·.subtotal)).sum)
    (((bm0.map fun p => (p.1, applyOffer offers p.1 p.2)).map
      fun p => p.2.discount).sum)
    (bm0.map fun p => (p.1, applyOffer offers p.1 p.2))

/-- src/utils.py `calculate_order_pricing(order, validated_items)`:
group by brand, apply the best DB offer per brand, then compute totals.
Only `order.payment_method` is read from the order; the offers table is
passed explicitly. -/
def calculate_order_pricing (payment_method : String) (offers : List Offer)
    (validated_items : List CartItem) : Except String PricingResult :=
  match groupByBrand validated_items with
  | Except.error e => Except.error e
  | Except.ok bm0 =>
    Except.ok (priceFromGroups payment_method offers validated_items bm0)

/-- A row of `product_variants` as selected by the order endpoints
(src/routers.py lines 473-479). -/
structure Variant where
  variant_id : ℕ
  product_id : ℕ
  color : String
  size : String
  stock_quantity : ℕ
deriving DecidableEq

/-- A row of `products` as selected by the order endpoints
(src/routers.py lines 495-502); `price` is nullable. -/
structure ProductRow where
  product_id : ℕ
  price : Option ℚ
  supplier_id : Option String
  supplier_product_id : Option String
deriving DecidableEq

/-- A row of the `orders` table, with the columns the order endpoints
read and write (src/routers.py lines 556-566, 637-639, 813-818). -/
structure OrderRow where
  order_id : ℕ
  user_id : String
  total_amount : ℚ
  payment_method : String
  delivery_address : String
  payment_status : String
  order_status : String
  contest_id : String
  lucky_number : List String
  opt_out_delivery : Bool
  razorpay_order_id : Option String
  razorpay_payment_id : Option String
deriving DecidableEq

/-- A row of `order_items` (src/routers.py lines 592-605). -/
structure OrderItemRow where
  order_id : ℕ
  product_id : ℕ
  variant_id : ℕ
  quantity : ℕ
  price_per_unit : ℚ
  subtotal : ℚ
  supplier_id : Option String
  supplier_product_id : Option String
deriving DecidableEq

/-- A row of `lucky_numbers` (src/routers.py lines 578-585). -/
structure LuckyRow where
  order_id : ℕ
  user_id : String
  lucky_number : String
deriving DecidableEq

/-- The tables touched by the order endpoints, plus the id the store
will assign to the next inserted order. -/
structure DB where
  variants : List Variant
  products : List ProductRow
  offers : List Offer
  orders : List OrderRow
  order_items : List OrderItemRow
  lucky_rows : List LuckyRow
  next_order_id : ℕ
deriving DecidableEq

/-- Outcomes of the external effects: the stream of values produced by
`random.randint(0, 9999999)`, whether each store write or the payment
gateway call fails, the gateway order id, the contest token, and the
payment-signature check outcome. -/
structure Env where
  luckyStream : List ℕ
  orderInsertFails : Bool := false
  luckyInsertFails : Bool := false
  itemInsertFails : Bool := false
  razorpayFails : Bool := false
  razorpayOrderId : String := "rzp_1"
  contestId : String := "contest"
  signatureValid : Bool := true
deriving DecidableEq

/-- Python `f"{n:07d}"` for `0 ≤ n ≤ 9999999`. -/
def pad7 (n : ℕ) : String :=
  let s := toString n
  String.mk (List.replicate (7 - s.length) '0') ++ s

/-- src/utils.py `generate_unique_lucky_numbers(count)`: draw 7-digit
strings, skipping any that collide with the existing pool or with an
earlier draw, until `count` are collected.  The random draws are
modelled by the explicit `stream`; the Python loop runs until it
succeeds, so theorems about a completed draw hypothesise a stream with
enough fresh entries. -/
def generate_unique_lucky_numbers (existing : List String) :
    List ℕ → ℕ → List String
  | [], _ => []
  | n :: rest, count =>
    if count = 0 then []
    else
      let s := pad7 n
      if s ∈ existing then generate_unique_lucky_numbers existing rest count
      else s :: generate_unique_lucky_numbers (s :: existing) rest (count - 1)

/-- Item validation loop of `price_preview` (src/routers.py lines
349-383): look up variant and product with `.single()` (which raises
when no row matches), read the price (`float(None)` raises), and build
the validated dictionaries — which carry no `brand_id` key. -/
def price_preview_items (db : DB) :
    List (ℕ × ℕ) → Except String (List CartItem)
  | [] => Except.ok []
  | (vid, qty) :: rest =>
    match db.variants.find? (fun w => w.variant_id == vid) with
    | none => Except.error "variant single() returned no rows"
    | some v =>
      match db.products.find? (fun p => p.product_id == v.product_id) with
      | none => Except.error "product single() returned no rows"
      | some p =>
        match p.price with
        | none => Except.error "TypeError: price is None"
        | some price =>
          match price_preview_items db rest with
          | Except.error e => Except.error e
          | Except.ok items =>
            Except.ok ({ brand_id := none, variant_id := vid,
                         product_id := v.product_id, quantity := qty,
                         price_per_unit := price,
                         subtotal := price * qty } :: items)

/-- src/routers.py `price_preview` (lines 344-387): validate the items,
then run the shared pricing engine.  No authentication, no stock check,
no persistence. -/
def price_preview (db : DB) (order_items : List (ℕ × ℕ))
    (payment_method : String) : Except String PricingResult :=
  match price_preview_items db order_items with
  | Except.error e => Except.error e
  | Except.ok validated =>
    calculate_order_pricing payment_method db.offers validated

/-- Item resolution loop of `create_order` (src/routers.py lines
467-536): variant lookup (404 when absent), stock guard (400 when
`stock_quantity < qty`), product lookup (404), null-price guard (400);
the validated dictionaries again carry no `brand_id` key. -/
def resolveItems (db : DB) :
    List (ℕ × ℕ) → Except (ℕ × String) (List CartItem)
  | [] => Except.ok []
  | (vid, qty) :: rest =>
    match db.variants.find? (fun w => w.variant_id == vid) with
    | none => Except.error (404, "Variant not found")
    | some v =>
      if v.stock_quantity < qty then
        Except.error (400, "Not enough stock")
      else
        match db.products.find? (fun p => p.product_id == v.product_id) with
        | none => Except.error (404, "Product not found")
        | some p =>
          match p.price with
          | none => Except.error (400, "Product has no price available")
          | some raw =>
            let price := round2 raw
            match resolveItems db rest with
            | Except.error e => Except.error e
            | Except.ok items =>
              Except.ok ({ brand_id := none, variant_id := vid,
                           product_id := v.product_id, quantity := qty,
                           price_per_unit := price, subtotal := price * qty,
                           new_stock := v.stock_quantity - qty,
                           supplier_id := p.supplier_id,
                           supplier_product_id := p.supplier_product_id } :: items)

/-- The `delete().eq("order_id", oid)` call on the `orders` table. -/
def deleteOrder (orders : List OrderRow) (oid : ℕ) : List OrderRow :=
  orders.filter fun o => !(o.order_id == oid)

/-- Stock deduction loop (src/routers.py lines 648-656): each variant's
stock is overwritten with the `new_stock` snapshot. -/
def deductStock (variants : List Variant) : List CartItem → List Variant
  | [] => variants
  | it :: rest =>
    deductStock
      (variants.map fun v =>
        if v.variant_id == it.variant_id then
          { v with stock_quantity := it.new_stock }
        else v)
      rest

/-- Steps 3-7 of `create_order` (src/routers.py lines 551-680): draw
`int(total_amount // 1000)` lucky numbers, insert the order header,
insert one `lucky_numbers` row per draw (a failure in this `try` block
is surfaced as a 500 with NO deletion of the header, lines 587-588),
insert the `order_items` payload (a failure deletes the header, lines
611-613), create the gateway order when paying online (a failure
deletes the header, lines 641-644), deduct stock, and return the
persisted order.  `total_amount` is the pre-discount sum of the line
subtotals accumulated at lines 521-523; `grandTotal` is
`pricing["total"]`. -/
def createOrderPersist (env : Env) (db : DB) (userId : String)
    (payment_method : String) (optOut : Bool) (addr : String)
    (validated : List CartItem) (grandTotal : ℚ) :
    Except (ℕ × String) OrderRow × DB :=
  let totalAmount := (validated.map (·.subtotal)).sum
  let luckyCount := (⌊totalAmount / 1000⌋).toNat
  let lucky := generate_unique_lucky_numbers
    (db.lucky_rows.map (·.lucky_number)) env.luckyStream luckyCount
  if env.orderInsertFails then
    (Except.error (500, "Error creating order in DB"), db)
  else
    let row : OrderRow :=
      { order_id := db.next_order_id, user_id := userId,
        total_amount := round2 grandTotal, payment_method := payment_method,
        delivery_address := addr, payment_status := "Pending",
        order_status := "Pending", contest_id := env.contestId,
        lucky_number := lucky, opt_out_delivery := optOut,
        razorpay_order_id := none, razorpay_payment_id := none }
    let db1 := { db with orders := db.orders ++ [row],
                         next_order_id := db.next_order_id + 1 }
    if env.luckyInsertFails && !lucky.isEmpty then
      (Except.error (500, "Error creating order in DB"), db1)
    else
      let newLucky : List LuckyRow := lucky.map fun ln =>
        { order_id := row.order_id, user_id := userId, lucky_number := ln }
      let db2 := { db1 with lucky_rows := db1.lucky_rows ++ newLucky }
      if env.itemInsertFails then
        (Except.error (500, "Error creating order items"),
         { db2 with orders := deleteOrder db2.orders row.order_id })
      else
        let newItems : List OrderItemRow := validated.map fun it =>
          { order_id := row.order_id, product_id := it.product_id,
            variant_id := it.variant_id, quantity := it.quantity,
            price_per_unit := it.price_per_unit, subtotal := it.subtotal,
            supplier_id := it.supplier_id,
            supplier_product_id := it.supplier_product_id }
        let db3 := { db2 with order_items := db2.order_items ++ newItems }
        if payment_method = "Online" then
          if env.razorpayFails then
            (Except.error (500, "Razorpay creation failed"),
             { db3 with orders := deleteOrder db3.orders row.order_id })
          else
            let updOrders := db3.orders.map fun o =>
              if o.order_id == row.order_id then
                { o with razorpay_order_id := some env.razorpayOrderId }
              else o
            let db4 := { db3 with orders := updOrders }
            let db5 := { db4 with variants := deductStock db4.variants validated }
            match db5.orders.find? (fun o => o.order_id == row.order_id) with
            | none => (Except.error (500, "order single() returned no rows"), db5)
            | some final => (Except.ok final, db5)
        else
          let db5 := { db3 with variants := deductStock db3.variants validated }
          match db5.orders.find? (fun o => o.order_id == row.order_id) with
          | none => (Except.error (500, "order single() returned no rows"), db5)
          | some final => (Except.ok final, db5)

/-- src/routers.py `create_order` (lines 394-680): profile precondition
(step 1, modelled by the `profileComplete` flag — the profiles table is
not part of the model), empty-cart guard, item resolution with the
stock guard (step 2), shared pricing — whose `KeyError` is converted by
the `except` at lines 546-549 into a 500 — and the persistence phase. -/
def create_order (env : Env) (db : DB) (userId : String)
    (profileComplete : Bool) (addr : String) (items : List (ℕ × ℕ))
    (payment_method : String) (optOut : Bool) :
    Except (ℕ × String) OrderRow × DB :=
  if !profileComplete then
    (Except.error (400,
      "Please complete your profile (name, address, city, postal code) before ordering."), db)
  else if items.isEmpty then
    (Except.error (400, "No items in order"), db)
  else
    match resolveItems db items with
    | Except.error e => (Except.error e, db)
    | Except.ok validated =>
      match calculate_order_pricing payment_method db.offers validated with
      | Except.error msg =>
        (Except.error (500, "Error validating items: " ++ msg), db)
      | Except.ok pricing =>
        createOrderPersist env db userId payment_method optOut addr
          validated pricing.total

/-- src/routers.py `verify_payment` (lines 779-822).  Step 1 loads the
order with `.single()` inside a `try` whose `except Exception` clause
(line 795-796) also catches the `HTTPException(404)` raised at line
791, so a missing or foreign order surfaces as a 500, not a 404.  An
order already `Completed` returns success with no further checks and
no writes.  Otherwise the gateway signature check runs (outcome given
by `env.signatureValid`) and on success the order row is updated. -/
def verify_payment (env : Env) (db : DB) (userId : String) (orderId : ℕ)
    (razorpayPaymentId : String) : Except (ℕ × String) String × DB :=
  match db.orders.find? (fun o => o.order_id == orderId && o.user_id == userId) with
  | none => (Except.error (500, "Error fetching order"), db)
  | some o =>
    if o.payment_status = "Completed" then
      (Except.ok "Payment already verified", db)
    else if !env.signatureValid then
      (Except.error (400, "Payment verification failed: Invalid signature"), db)
    else
      (Except.ok "Payment verified and order confirmed",
       { db with orders := db.orders.map fun r =>
           if r.order_id == orderId then
             { r with payment_status := "Completed",
                      order_status := "Confirmed",
                      razorpay_payment_id := some razorpayPaymentId }
           else r })

/-! ### Helper lemmas -/

lemma roundPaise_nonneg {s : ℚ} (h : 0 ≤ s) : 0 ≤ roundPaise s := by
  unfold roundPaise
  have hfl : (0 : ℤ) ≤ ⌊s⌋ := Int.floor_nonneg.mpr h
  split_ifs <;> omega

lemma round2_nonneg {q : ℚ} (h : 0 ≤ q) : 0 ≤ round2 q := by
  unfold round2
  have hp : (0 : ℤ) ≤ roundPaise (q * 100) := roundPaise_nonneg (by positivity)
  exact div_nonneg (by exact_mod_cast hp) (by norm_num)

lemma mem_fetchBrandOffers {offers : List Offer} {b q : ℕ} {o : Offer} :
    o ∈ fetchBrandOffers offers b q ↔
      o ∈ offers ∧ o.scope_type = "brand" ∧ o.scope_id = b ∧
        o.is_active = true ∧ o.min_quantity ≤ q := by
  simp [fetchBrandOffers, List.mem_filter]

lemma pickMaxOffer_cons (a o : Offer) (os : List Offer) :
    pickMaxOffer a (o :: os) =
      pickMaxOffer (if a.discount_value < o.discount_value then o else a) os := rfl

lemma pickMaxOffer_mem (a : Offer) (l : List Offer) : pickMaxOffer a l ∈ a :: l := by
  induction l generalizing a with
  | nil => simp [pickMaxOffer]
  | cons o os ih =>
    rw [pickMaxOffer_cons]
    have h := ih (if a.discount_value < o.discount_value then o else a)
    rcases List.mem_cons.mp h with h1 | h1
    · rw [h1]
      split_ifs
      · exact List.mem_cons_of_mem _ (List.mem_cons_self _ _)
      · exact List.mem_cons_self _ _
    · exact List.mem_cons_of_mem _ (List.mem_cons_of_mem _ h1)

lemma pickMaxOffer_le (a : Offer) (l : List Offer) :
    ∀ x ∈ a :: l, x.discount_value ≤ (pickMaxOffer a l).discount_value := by
  induction l generalizing a with
  | nil =>
    intro x hx
    rcases List.mem_cons.mp hx with h1 | h1
    · rw [h1]; simp [pickMaxOffer]
    · cases h1
  | cons o os ih =>
    intro x hx
    rw [pickMaxOffer_cons]
    have hstep : ∀ y ∈ (if a.discount_value < o.discount_value then o else a) :: os,
        y.discount_value ≤
          (pickMaxOffer (if a.discount_value < o.discount_value then o else a) os).discount_value :=
      ih _
    have ha : a.discount_value ≤
        (if a.discount_value < o.discount_value then o else a).discount_value := by
      split_ifs with hc
      · exact le_of_lt hc
      · exact le_refl _
    have ho : o.discount_value ≤
        (if a.discount_value < o.discount_value then o else a).discount_value := by
      split_ifs with hc
      · exact le_refl _
      · exact le_of_not_lt hc
    have hhead := hstep _ (List.mem_cons_self _ _)
    rcases List.mem_cons.mp hx with h1 | h1
    · rw [h1]; exact le_trans ha hhead
    · rcases List.mem_cons.mp h1 with h2 | h2
      · rw [h2]; exact le_trans ho hhead
      · exact hstep x (List.mem_cons_of_mem _ h2)

lemma bestOffer_mem {l : List Offer} {b : Offer} (h : bestOffer l = some b) : b ∈ l := by
  cases l with
  | nil => cases h
  | cons o os =>
    simp only [bestOffer, Option.some.injEq] at h
    rw [← h]
    exact pickMaxOffer_mem o os

lemma bestOffer_le {l : List Offer} {b : Offer} (h : bestOffer l = some b) :
    ∀ o ∈ l, o.discount_value ≤ b.discount_value := by
  cases l with
  | nil => cases h
  | cons o os =>
    simp only [bestOffer, Option.some.injEq] at h
    rw [← h]
    exact pickMaxOffer_le o os

lemma insertBrand_forall {P : ℕ × BrandData → Prop} {m : List (ℕ × BrandData)}
    {b : ℕ} {s : ℚ} {q : ℕ}
    (hm : ∀ p ∈ m, P p)
    (hnew : P (b, { subtotal := s, quantity := q, discount := 0, offer := none }))
    (hupd : ∀ k d, (k, d) ∈ m →
      P (k, { d with subtotal := d.subtotal + s, quantity := d.quantity + q })) :
    ∀ p ∈ insertBrand m b s q, P p := by
  induction m with
  | nil =>
    intro p hp
    simp only [insertBrand, List.mem_singleton] at hp
    rw [hp]; exact hnew
  | cons hd tl ih =>
    intro p hp
    obtain ⟨k, d⟩ := hd
    simp only [insertBrand] at hp
    split_ifs at hp with hk
    · rcases List.mem_cons.mp hp with h1 | h1
      · rw [h1]; exact hupd k d (List.mem_cons_self _ _)
      · exact hm p (List.mem_cons_of_mem _ h1)
    · rcases List.mem_cons.mp hp with h1 | h1
      · rw [h1]; exact hm (k, d) (List.mem_cons_self _ _)
      · exact ih (fun x hx => hm x (List.mem_cons_of_mem _ hx))
          (fun k' d' hx => hupd k' d' (List.mem_cons_of_mem _ hx)) p h1

lemma groupByBrandAux_offer_none :
    ∀ (items : List CartItem) (m m' : List (ℕ × BrandData)),
      groupByBrandAux m items = Except.ok m' →
      (∀ p ∈ m, p.2.offer = none ∧ p.2.discount = 0) →
      ∀ p ∈ m', p.2.offer = none ∧ p.2.discount = 0 := by
  intro items
  induction items with
  | nil =>
    intro m m' h hm
    simp only [groupByBrandAux, Except.ok.injEq] at h
    rw [← h]; exact hm
  | cons it rest ih =>
    intro m m' h hm
    simp only [groupByBrandAux] at h
    cases hb : it.brand_id with
    | none => rw [hb] at h; cases h
    | some b =>
      rw [hb] at h
      exact ih _ _ h (insertBrand_forall hm ⟨rfl, rfl⟩ (fun k d hkd => hm (k, d) hkd))

lemma groupByBrandAux_subtotal_nonneg :
    ∀ (items : List CartItem) (m m' : List (ℕ × BrandData)),
      groupByBrandAux m items = Except.ok m' →
      (∀ i ∈ items, 0 ≤ i.subtotal) →
      (∀ p ∈ m, 0 ≤ p.2.subtotal) →
      ∀ p ∈ m', 0 ≤ p.2.subtotal := by
  intro items
  induction items with
  | nil =>
    intro m m' h _ hm
    simp only [groupByBrandAux, Except.ok.injEq] at h
    rw [← h]; exact hm
  | cons it rest ih =>
    intro m m' h hitems hm
    simp only [groupByBrandAux] at h
    cases hb : it.brand_id with
    | none => rw [hb] at h; cases h
    | some b =>
      rw [hb] at h
      have hit : 0 ≤ it.subtotal := hitems it (List.mem_cons_self _ _)
      refine ih _ _ h (fun i hi => hitems i (List.mem_cons_of_mem _ hi)) ?_
      exact insertBrand_forall hm hit
        (fun k d hkd => add_nonneg (hm (k, d) hkd) hit)

lemma finishTotals_breakdown (pm : String) (s td : ℚ) (bd : List (ℕ × BrandData)) :
    (finishTotals pm s td bd).brand_breakdown = bd := by
  unfold finishTotals
  split_ifs <;> rfl

lemma calc_ok_groups {method : String} {offers : List Offer}
    {items : List CartItem} {r : PricingResult}
    (h : calculate_order_pricing method offers items = Except.ok r) :
    ∃ m, groupByBrand items = Except.ok m ∧
      r = priceFromGroups method offers items m := by
  unfold calculate_order_pricing at h
  cases hg : groupByBrand items with
  | error e => rw [hg] at h; cases h
  | ok m => exact ⟨m, rfl, (Except.ok.inj (hg ▸ h)).symm⟩

lemma priceFromGroups_breakdown (pm : String) (offers : List Offer)
    (items : List CartItem) (m : List (ℕ × BrandData)) :
    (priceFromGroups pm offers items m).brand_breakdown =
      m.map fun p => (p.1, applyOffer offers p.1 p.2) := by
  unfold priceFromGroups
  rw [finishTotals_breakdown]

lemma calc_ok_breakdown {method : String} {offers : List Offer}
    {items : List CartItem} {r : PricingResult}
    (h : calculate_order_pricing method offers items = Except.ok r) :
    ∃ m, groupByBrand items = Except.ok m ∧
      r.brand_breakdown = m.map fun p => (p.1, applyOffer offers p.1 p.2) := by
  obtain ⟨m, hg, hr⟩ := calc_ok_groups h
  exact ⟨m, hg, by rw [hr, priceFromGroups_breakdown]⟩

lemma applyOffer_of_empty {offers : List Offer} {b : ℕ} {d : BrandData}
    (h : fetchBrandOffers offers b d.quantity = []) : applyOffer offers b d = d := by
  unfold applyOffer
  rw [h]
  rfl

lemma applyOffer_offer_some {offers : List Offer} {b : ℕ} {d : BrandData} {best : Offer}
    (h : bestOffer (fetchBrandOffers offers b d.quantity) = some best) :
    (applyOffer offers b d).offer = some best ∧
      (applyOffer offers b d).discount =
        (if best.discount_type = "percentage"
          then round2 (d.subtotal * (best.discount_value / 100))
          else round2 best.discount_value) ∧
      (applyOffer offers b d).subtotal = d.subtotal ∧
      (applyOffer offers b d).quantity = d.quantity := by
  unfold applyOffer
  rw [h]
  exact ⟨rfl, rfl, rfl, rfl⟩

lemma applyOffer_preserves {offers : List Offer} {b : ℕ} {d : BrandData} :
    (applyOffer offers b d).subtotal = d.subtotal ∧
      (applyOffer offers b d).quantity = d.quantity := by
  unfold applyOffer
  cases bestOffer (fetchBrandOffers offers b d.quantity) with
  | none => exact ⟨rfl, rfl⟩
  | some best => exact ⟨rfl, rfl⟩

/-! ### Concrete fixtures -/

/-- A catalog with one variant (id 1, product 1, stock 5) and one priced
product (id 1, price 100); no offers, no orders yet. -/
def cdb : DB :=
  { variants := [{ variant_id := 1, product_id := 1, color := "Red",
                   size := "M", stock_quantity := 5 }],
    products := [{ product_id := 1, price := some 100,
                   supplier_id := none, supplier_product_id := none }],
    offers := [], orders := [], order_items := [], lucky_rows := [],
    next_order_id := 1 }

/-- An environment in which every external effect succeeds. -/
def benignEnv : Env := { luckyStream := [0, 1, 2, 3, 4] }

/-- Whether an `Except` value is an error. -/
def isError {e a : Type} : Except e a → Bool
  | Except.error _ => true
  | Except.ok _ => false

/-! ### C10 -/

/-- C10: `POST /orders/price-preview` accepts an empty items list and,
for any catalog state, returns subtotal 0, discount 0, gst 0,
shipping_fee 49 and total 49 — or cod_fee 40 and total 89 when
`payment_method = "COD"` — so shipping and COD fees are charged even on
an empty cart. -/
theorem C10_empty_cart_preview (db : DB) :
    price_preview db [] "Online" =
      Except.ok { subtotal := 0, discount := 0, gst := 0, shipping_fee := 49,
                  cod_fee := 0, total := 49, brand_breakdown := [] } ∧
    price_preview db [] "COD" =
      Except.ok { subtotal := 0, discount := 0, gst := 0, shipping_fee := 49,
                  cod_fee := 40, total := 89, brand_breakdown := [] } := by
  constructor
  · norm_num [price_preview, price_preview_items, calculate_order_pricing,
      priceFromGroups, groupByBrand, groupByBrandAux, finishTotals, round2, roundPaise]
    all_goals decide
  · norm_num [price_preview, price_preview_items, calculate_order_pricing,
      priceFromGroups, groupByBrand, groupByBrandAux, finishTotals, round2, roundPaise]

/-! ### C1 -/

/-- C1 (code bug): the validated-item dictionaries built by
`price_preview` and `create_order` carry no `brand_id` key, so for a
one-item cart whose item fully passes resolution (variant found, stock
sufficient, product present, price present) the pricing stage raises
`KeyError: brand_id` instead of returning a PricingResult; in
`create_order` this surfaces as a 500 and nothing is persisted. -/
theorem C1_pricing_keyerror :
    price_preview cdb [(1, 1)] "Online" = Except.error "KeyError: brand_id" ∧
    (create_order benignEnv cdb "u" true "addr" [(1, 1)] "Online" false).1 =
      Except.error (500, "Error validating items: KeyError: brand_id") ∧
    (create_order benignEnv cdb "u" true "addr" [(1, 1)] "Online" false).2 = cdb := by
  refine ⟨?_, ?_, ?_⟩
  · norm_num [price_preview, price_preview_items, cdb, List.find?,
      calculate_order_pricing, groupByBrand, groupByBrandAux]
    all_goals decide
  · norm_num [create_order, resolveItems, cdb, List.find?, round2, roundPaise,
      calculate_order_pricing, groupByBrand, groupByBrandAux]
    all_goals decide
  · norm_num [create_order, resolveItems, cdb, List.find?, round2, roundPaise,
      calculate_order_pricing, groupByBrand, groupByBrandAux]
    all_goals decide

/-! ### C4 -/

/-- An order row with id 7 owned by user `"other"`, payment pending. -/
def c4row : OrderRow :=
  { order_id := 7, user_id := "other", total_amount := 0,
    payment_method := "Online", delivery_address := "a",
    payment_status := "Pending", order_status := "Pending",
    contest_id := "c", lucky_number := [], opt_out_delivery := false,
    razorpay_order_id := none, razorpay_payment_id := none }

/-- A database holding only the order of `c4row`. -/
def c4db : DB := { cdb with orders := [c4row] }

/-- C4 (code bug): when the referenced order is absent, or present but
owned by another user, `verify_payment` surfaces a 500
("Error fetching order") instead of the 404 the spec promises, because
the `except Exception` at src/routers.py line 795 also catches the
`HTTPException(404)` raised inside the `try`. -/
theorem C4_verify_not_found_is_500 :
    (verify_payment benignEnv cdb "u" 7 "pay").1 =
      Except.error (500, "Error fetching order") ∧
    (verify_payment benignEnv c4db "u" 7 "pay").1 =
      Except.error (500, "Error fetching order") := by
  constructor
  · norm_num [verify_payment, cdb, List.find?]
  · simp [verify_payment, c4db, c4row, cdb, List.find?]

/-! ### C9 -/

/-- C9: if the order exists, is owned by the caller, and its
`payment_status` is already `"Completed"`, `verify_payment` returns
success without touching the signature check (the result holds for
every signature outcome in `env`) and without modifying any state. -/
theorem C9_verify_idempotent (env : Env) (db : DB) (userId : String)
    (orderId : ℕ) (payId : String) (o : OrderRow)
    (hfind : db.orders.find?
      (fun r => r.order_id == orderId && r.user_id == userId) = some o)
    (hdone : o.payment_status = "Completed") :
    verify_payment env db userId orderId payId =
      (Except.ok "Payment already verified", db) := by
  unfold verify_payment
  simp only [hfind, hdone]
  simp

/-- A completed order row, id 3, owned by `"u"`. -/
def c9row : OrderRow :=
  { order_id := 3, user_id := "u", total_amount := 0,
    payment_method := "Online", delivery_address := "a",
    payment_status := "Completed", order_status := "Confirmed",
    contest_id := "c", lucky_number := [], opt_out_delivery := false,
    razorpay_order_id := some "rz", razorpay_payment_id := some "p" }

/-- A database holding only the completed order of `c9row`. -/
def c9db : DB := { cdb with orders := [c9row] }

theorem C9_verify_idempotent_witness :
    verify_payment { luckyStream := [], signatureValid := false } c9db "u" 3 "pay2" =
      (Except.ok "Payment already verified", c9db) :=
  C9_verify_idempotent { luckyStream := [], signatureValid := false } c9db "u" 3
    "pay2" c9row (by decide) (by decide)

/-! ### C8 -/

/-- The grand total before the COD surcharge, reconstructed from a
PricingResult's own fields (the `grand` of src/utils.py line 86):
re-rounding the discounted subtotal, adding GST and the shipping fee. -/
def preCodTotal (r : PricingResult) : ℚ :=
  round2 (round2 (round2 (r.subtotal -
    (r.brand_breakdown.map fun p => p.2.discount).sum) + r.gst) + r.shipping_fee)

/-- C8: the pricing engine charges
`cod_fee = max(40, round(grand_total * 0.02, 2))` and adds it to the
grand total exactly when `payment_method = "COD"`; any other method
gets `cod_fee = 0` and an unchanged total; consequently every COD cart
pays at least 40. -/
theorem C8_cod_fee (method : String) (offers : List Offer)
    (items : List CartItem) (r : PricingResult)
    (h : calculate_order_pricing method offers items = Except.ok r) :
    (method = "COD" →
      r.cod_fee = max 40 (round2 (preCodTotal r * (2 / 100))) ∧
      40 ≤ r.cod_fee ∧
      r.total = round2 (preCodTotal r + r.cod_fee)) ∧
    (method ≠ "COD" → r.cod_fee = 0 ∧ r.total = preCodTotal r) := by
  obtain ⟨m, hg, hr⟩ := calc_ok_groups h
  subst hr
  constructor
  · intro hm
    refine ⟨?_, ?_, ?_⟩
    · simp only [preCodTotal, priceFromGroups, finishTotals, if_pos hm]
    · simp only [preCodTotal, priceFromGroups, finishTotals, if_pos hm]
      exact le_max_left _ _
    · simp only [preCodTotal, priceFromGroups, finishTotals, if_pos hm]
  · intro hm
    refine ⟨?_, ?_⟩
    · simp only [priceFromGroups, finishTotals, if_neg hm]
    · simp only [preCodTotal, priceFromGroups, finishTotals, if_neg hm]

/-- A one-item cart with subtotal 1000 under brand 1, as in the spec's
worked example. -/
def w8items : List CartItem :=
  [{ brand_id := some 1, variant_id := 1, product_id := 1, quantity := 1,
     price_per_unit := 1000, subtotal := 1000 }]

/-- The pricing result of `w8items` under COD: gst 50, no shipping,
cod_fee 40, total 1090. -/
def w8result : PricingResult :=
  { subtotal := 1000, discount := 0, gst := 50, shipping_fee := 0,
    cod_fee := 40, total := 1090,
    brand_breakdown := [(1, { subtotal := 1000, quantity := 1,
                              discount := 0, offer := none })] }

theorem C8_cod_fee_witness :
    calculate_order_pricing "COD" [] w8items = Except.ok w8result ∧
    40 ≤ w8result.cod_fee := by
  have heq : calculate_order_pricing "COD" [] w8items = Except.ok w8result := by
    norm_num [calculate_order_pricing, priceFromGroups, groupByBrand,
      groupByBrandAux, insertBrand, applyOffer, fetchBrandOffers, bestOffer,
      finishTotals, round2, roundPaise, w8items, w8result]
  exact ⟨heq, ((C8_cod_fee "COD" [] w8items w8result heq).1 rfl).2.1⟩

/-! ### C6 -/

/-- C6: for each brand group in a successful pricing run, the eligible
offers are exactly those with scope type `brand`, matching scope id,
active, and `min_quantity` at most the group quantity; with no eligible
offer the group's discount is 0 and no offer is recorded; otherwise the
applied offer is eligible, its raw `discount_value` is maximal among
the eligible offers, and the discount is
`round(subtotal * value/100, 2)` for `percentage` type and
`round(value, 2)` — a flat amount — otherwise. -/
theorem C6_offer_selection (method : String) (offers : List Offer)
    (items : List CartItem) (r : PricingResult)
    (h : calculate_order_pricing method offers items = Except.ok r) :
    ∀ b bd, (b, bd) ∈ r.brand_breakdown →
      (∀ o, o ∈ fetchBrandOffers offers b bd.quantity ↔
        (o ∈ offers ∧ o.scope_type = "brand" ∧ o.scope_id = b ∧
         o.is_active = true ∧ o.min_quantity ≤ bd.quantity)) ∧
      (fetchBrandOffers offers b bd.quantity = [] →
        bd.discount = 0 ∧ bd.offer = none) ∧
      (fetchBrandOffers offers b bd.quantity ≠ [] →
        ∃ best, bd.offer = some best ∧
          best ∈ fetchBrandOffers offers b bd.quantity ∧
          (∀ o ∈ fetchBrandOffers offers b bd.quantity,
            o.discount_value ≤ best.discount_value) ∧
          bd.discount = (if best.discount_type = "percentage"
            then round2 (bd.subtotal * (best.discount_value / 100))
            else round2 best.discount_value)) := by
  obtain ⟨m, hg, hbd⟩ := calc_ok_breakdown h
  intro b bd hmem
  rw [hbd] at hmem
  obtain ⟨⟨b', d⟩, hd, heq⟩ := List.mem_map.mp hmem
  rw [Prod.mk.injEq] at heq
  obtain ⟨hb, hbd2⟩ := heq
  subst hb
  subst hbd2
  have hdo : d.offer = none ∧ d.discount = 0 := by
    unfold groupByBrand at hg
    exact groupByBrandAux_offer_none items [] m hg (by simp) (b', d) hd
  have hsub : (applyOffer offers b' d).subtotal = d.subtotal :=
    (@applyOffer_preserves offers b' d).1
  have hq : (applyOffer offers b' d).quantity = d.quantity :=
    (@applyOffer_preserves offers b' d).2
  refine ⟨fun o => mem_fetchBrandOffers, ?_, ?_⟩
  · intro hempty
    rw [hq] at hempty
    rw [applyOffer_of_empty hempty]
    exact ⟨hdo.2, hdo.1⟩
  · intro hne
    rw [hq] at hne ⊢
    cases hf : fetchBrandOffers offers b' d.quantity with
    | nil => exact absurd hf hne
    | cons o os =>
      have hbo : bestOffer (fetchBrandOffers offers b' d.quantity) =
          some (pickMaxOffer o os) := by
        rw [hf]; rfl
      obtain ⟨h1, h2, h3, _⟩ := applyOffer_offer_some hbo
      refine ⟨pickMaxOffer o os, h1, ?_, ?_, ?_⟩
      · exact pickMaxOffer_mem o os
      · exact pickMaxOffer_le o os
      · rw [h2, hsub]

/-- A second active brand-1 offer: 10% off from quantity 1. -/
def w6second : Offer :=
  { offer_id := 2, discount_type := "percentage", discount_value := 10,
    min_quantity := 1, scope_type := "brand", scope_id := 1, is_active := true }

/-- Two active brand-1 offers: 30% off from quantity 3, 10% off from
quantity 1. -/
def w6offers : List Offer :=
  [{ offer_id := 1, discount_type := "percentage", discount_value := 30,
     min_quantity := 3, scope_type := "brand", scope_id := 1, is_active := true },
   w6second]

/-- A brand-1 cart with quantity 3 and subtotal 400. -/
def w6items : List CartItem :=
  [{ brand_id := some 1, variant_id := 1, product_id := 1, quantity := 3,
     price_per_unit := 400 / 3, subtotal := 400 }]

/-- The winning offer: 30% off, min quantity 3. -/
def w6best : Offer :=
  { offer_id := 1, discount_type := "percentage", discount_value := 30,
    min_quantity := 3, scope_type := "brand", scope_id := 1, is_active := true }

/-- The brand-1 aggregate after the 30% offer: discount 120. -/
def w6bd : BrandData :=
  { subtotal := 400, quantity := 3, discount := 120, offer := some w6best }

/-- Pricing of `w6items` under `w6offers`: discounted 280, gst 14,
shipping 49, total 343 (the spec's third worked example). -/
def w6result : PricingResult :=
  { subtotal := 400, discount := 120, gst := 14, shipping_fee := 49,
    cod_fee := 0, total := 343, brand_breakdown := [(1, w6bd)] }

lemma w6pricing_eq :
    calculate_order_pricing "Online" w6offers w6items = Except.ok w6result := by
  norm_num [calculate_order_pricing, priceFromGroups, groupByBrand,
    groupByBrandAux, insertBrand, applyOffer, fetchBrandOffers, bestOffer,
    pickMaxOffer, finishTotals, round2, roundPaise, w6offers, w6second,
    w6items, w6best, w6bd, w6result]
  all_goals simp

theorem C6_offer_selection_witness :
    w6bd.offer = some w6best ∧
    w6best ∈ fetchBrandOffers w6offers 1 w6bd.quantity ∧
    w6second.discount_value ≤ w6best.discount_value ∧
    w6bd.discount = round2 (w6bd.subtotal * (w6best.discount_value / 100)) := by
  obtain ⟨best, h1, h2, h3, h4⟩ :=
    (C6_offer_selection "Online" w6offers w6items w6result w6pricing_eq 1 w6bd
      (List.mem_singleton.mpr rfl)).2.2
      (by intro hcon; rw [show w6bd.quantity = 3 from rfl] at hcon;
          revert hcon; decide)
  have hb : best = w6best :=
    (Option.some.inj ((show w6bd.offer = some w6best from rfl).symm.trans h1)).symm
  subst hb
  rw [if_pos (show w6best.discount_type = "percentage" from rfl)] at h4
  exact ⟨h1, h2, h3 w6second (by decide), h4⟩

theorem C10_empty_cart_preview_witness :
    price_preview cdb [] "Online" =
      Except.ok { subtotal := 0, discount := 0, gst := 0, shipping_fee := 49,
                  cod_fee := 0, total := 49, brand_breakdown := [] } ∧
    price_preview cdb [] "COD" =
      Except.ok { subtotal := 0, discount := 0, gst := 0, shipping_fee := 49,
                  cod_fee := 40, total := 89, brand_breakdown := [] } :=
  C10_empty_cart_preview cdb

/-! ### C5 -/

/-- An active brand-1 fixed offer of 500, no quantity floor. -/
def c5fixed : Offer :=
  { offer_id := 1, discount_type := "fixed", discount_value := 500,
    min_quantity := 0, scope_type := "brand", scope_id := 1, is_active := true }

/-- An active brand-2 percentage offer with a negative value. -/
def c5neg : Offer :=
  { offer_id := 2, discount_type := "percentage", discount_value := -50,
    min_quantity := 0, scope_type := "brand", scope_id := 2, is_active := true }

/-- A two-brand cart, 100 per brand. -/
def c5items : List CartItem :=
  [{ brand_id := some 1, variant_id := 1, product_id := 1, quantity := 1,
     price_per_unit := 100, subtotal := 100 },
   { brand_id := some 2, variant_id := 2, product_id := 2, quantity := 1,
     price_per_unit := 100, subtotal := 100 }]

/-- The brand breakdown produced by pricing `c5items` under the two
offers above. -/
def c5breakdown : List (ℕ × BrandData) :=
  match calculate_order_pricing "Online" [c5fixed, c5neg] c5items with
  | Except.ok r => r.brand_breakdown
  | Except.error _ => []

/-- Brand 1 after the fixed offer: discount 500 on a subtotal of 100. -/
def c5bd1 : BrandData :=
  { subtotal := 100, quantity := 1, discount := 500, offer := some c5fixed }

/-- Brand 2 after the negative percentage offer: discount -50. -/
def c5bd2 : BrandData :=
  { subtotal := 100, quantity := 1, discount := -50, offer := some c5neg }

/-- C5 (counterexample): with a fixed offer of 500 on a brand subtotal
of 100 the discount exceeds the subtotal, and with a negative
`discount_value` the discount is negative, so the claimed bounds
`0 ≤ discount_amount ≤ subtotal` fail on the brand breakdown. -/
theorem C5_discount_bound_counterexample :
    c5breakdown = [(1, c5bd1), (2, c5bd2)] ∧
    c5bd1.subtotal < c5bd1.discount ∧
    c5bd2.discount < 0 := by
  refine ⟨?_, by norm_num [c5bd1], by norm_num [c5bd2]⟩
  norm_num [c5breakdown, calculate_order_pricing, priceFromGroups,
    groupByBrand, groupByBrandAux, insertBrand, applyOffer, fetchBrandOffers,
    bestOffer, pickMaxOffer, finishTotals, round2, roundPaise, Int.fract,
    -Int.self_sub_floor, c5fixed, c5neg, c5items, c5bd1, c5bd2]
  all_goals simp

/-- C5 (amended): when every offer's `discount_value` is nonnegative
and every item subtotal is nonnegative, each brand's discount is
nonnegative; the upper bound by the brand subtotal does not hold in
general (see the counterexample: a fixed offer is a flat amount). -/
theorem C5_discount_nonneg (method : String) (offers : List Offer)
    (items : List CartItem) (r : PricingResult)
    (hoff : ∀ o ∈ offers, 0 ≤ o.discount_value)
    (hitems : ∀ i ∈ items, 0 ≤ i.subtotal)
    (h : calculate_order_pricing method offers items = Except.ok r) :
    ∀ p ∈ r.brand_breakdown, 0 ≤ p.2.discount := by
  obtain ⟨m, hg, hbd⟩ := calc_ok_breakdown h
  have hg' : groupByBrandAux [] items = Except.ok m := hg
  intro p hp
  rw [hbd] at hp
  obtain ⟨⟨b, d⟩, hd, heq⟩ := List.mem_map.mp hp
  have hdo := groupByBrandAux_offer_none items [] m hg' (by simp) (b, d) hd
  have hds : 0 ≤ d.subtotal :=
    groupByBrandAux_subtotal_nonneg items [] m hg' hitems (by simp) (b, d) hd
  rw [← heq]
  show 0 ≤ (applyOffer offers b d).discount
  unfold applyOffer
  cases hbo : bestOffer (fetchBrandOffers offers b d.quantity) with
  | none =>
    rw [hdo.2]
  | some best =>
    have hbmem : best ∈ offers := (mem_fetchBrandOffers.mp (bestOffer_mem hbo)).1
    have hbv : 0 ≤ best.discount_value := hoff best hbmem
    dsimp only
    split_ifs with ht
    · exact round2_nonneg (mul_nonneg hds (div_nonneg hbv (by norm_num)))
    · exact round2_nonneg hbv

theorem C5_discount_nonneg_witness : (0 : ℚ) ≤ w6bd.discount := by
  have hoff : ∀ o ∈ w6offers, (0 : ℚ) ≤ o.discount_value := by
    intro o ho
    fin_cases ho <;> norm_num [w6second]
  have hitems : ∀ i ∈ w6items, (0 : ℚ) ≤ i.subtotal := by
    intro i hi
    fin_cases hi <;> norm_num
  exact C5_discount_nonneg "Online" w6offers w6items w6result hoff hitems
    w6pricing_eq (1, w6bd) (List.mem_singleton.mpr rfl)

/-! ### C7 -/

lemma resolveItems_error_of_stock (db : DB) :
    ∀ items : List (ℕ × ℕ),
      (∃ vid qty, (vid, qty) ∈ items ∧ ∃ v,
        db.variants.find? (fun w => w.variant_id == vid) = some v ∧
        v.stock_quantity < qty) →
      ∃ e, resolveItems db items = Except.error e := by
  intro items
  induction items with
  | nil =>
    rintro ⟨vid, qty, hmem, _⟩
    cases hmem
  | cons hd rest ih =>
    rintro ⟨vid, qty, hmem, v, hfind, hstock⟩
    obtain ⟨vid0, qty0⟩ := hd
    cases hf : db.variants.find? (fun w => w.variant_id == vid0) with
    | none => exact ⟨(404, "Variant not found"), by simp [resolveItems, hf]⟩
    | some v0 =>
      by_cases hs : v0.stock_quantity < qty0
      · exact ⟨(400, "Not enough stock"), by simp [resolveItems, hf, hs]⟩
      · rcases List.mem_cons.mp hmem with hh | ht
        · rw [Prod.mk.injEq] at hh
          obtain ⟨h1, h2⟩ := hh
          subst h1; subst h2
          rw [hfind] at hf
          cases hf
          exact absurd hstock hs
        · obtain ⟨e, he⟩ := ih ⟨vid, qty, ht, v, hfind, hstock⟩
          cases hp : db.products.find? (fun p => p.product_id == v0.product_id) with
          | none =>
            exact ⟨(404, "Product not found"), by simp [resolveItems, hf, hs, hp]⟩
          | some p0 =>
            cases hpr : p0.price with
            | none =>
              exact ⟨(400, "Product has no price available"),
                by simp [resolveItems, hf, hs, hp, hpr]⟩
            | some raw =>
              exact ⟨e, by simp [resolveItems, hf, hs, hp, hpr, he]⟩

/-- C7: if any requested line item asks for more than the available
stock of its (existing) variant, `create_order` fails and the orders,
order-items and lucky-numbers tables — indeed the whole store state —
are left exactly as they were: the stock guard fires during resolution,
before any write. -/
theorem C7_stock_guard (env : Env) (db : DB) (userId : String)
    (profileComplete : Bool) (addr : String) (items : List (ℕ × ℕ))
    (method : String) (optOut : Bool)
    (hbad : ∃ vid qty, (vid, qty) ∈ items ∧ ∃ v,
      db.variants.find? (fun w => w.variant_id == vid) = some v ∧
      v.stock_quantity < qty) :
    isError (create_order env db userId profileComplete addr items
      method optOut).1 = true ∧
    (create_order env db userId profileComplete addr items method optOut).2 = db := by
  obtain ⟨vid, qty, hmem, hv⟩ := hbad
  have hne : items ≠ [] := by
    intro h
    rw [h] at hmem
    cases hmem
  obtain ⟨e, he⟩ := resolveItems_error_of_stock db items ⟨vid, qty, hmem, hv⟩
  unfold create_order
  cases hpc : profileComplete with
  | false => exact ⟨rfl, rfl⟩
  | true =>
    have hie : items.isEmpty = false := by
      cases items with
      | nil => exact absurd rfl hne
      | cons a l => rfl
    rw [Bool.not_true, if_neg (by simp), hie, if_neg (by simp), he]
    exact ⟨rfl, rfl⟩

theorem C7_stock_guard_witness :
    isError (create_order benignEnv cdb "u" true "addr" [(1, 9)] "Online" false).1 =
      true ∧
    (create_order benignEnv cdb "u" true "addr" [(1, 9)] "Online" false).2 = cdb :=
  C7_stock_guard benignEnv cdb "u" true "addr" [(1, 9)] "Online" false
    ⟨1, 9, List.mem_singleton.mpr rfl,
     { variant_id := 1, product_id := 1, color := "Red", size := "M",
       stock_quantity := 5 }, by decide, by decide⟩

/-! ### C3 -/

lemma deleteOrder_of_fresh (orders : List OrderRow) (oid : ℕ)
    (hfresh : ∀ o ∈ orders, o.order_id ≠ oid) :
    deleteOrder orders oid = orders := by
  unfold deleteOrder
  refine List.filter_eq_self.mpr ?_
  intro o ho
  simp [hfresh o ho]

lemma deleteOrder_append_last (orders : List OrderRow) (row : OrderRow) (oid : ℕ)
    (hrow : row.order_id = oid)
    (hfresh : ∀ o ∈ orders, o.order_id ≠ oid) :
    deleteOrder (orders ++ [row]) oid = orders := by
  unfold deleteOrder
  rw [List.filter_append]
  have h2 : List.filter (fun o => !(o.order_id == oid)) [row] = [] := by
    simp [List.filter, hrow]
  rw [h2, List.append_nil]
  exact deleteOrder_of_fresh orders oid hfresh

/-- The cart item of the C3 run: one unit at 1000. -/
def c3item : CartItem :=
  { brand_id := none, variant_id := 1, product_id := 1, quantity := 1,
    price_per_unit := 1000, subtotal := 1000, new_stock := 4 }

/-- An environment whose only failure is the lucky-number insert. -/
def c3env : Env := { luckyStream := [7], luckyInsertFails := true }

/-- The persistence phase run on `c3item` with the lucky-number insert
failing after the order header was inserted. -/
def c3run : Except (ℕ × String) OrderRow × DB :=
  createOrderPersist c3env cdb "u" "COD" false "addr" [c3item] 1090

/-- The order header that survives the failed C3 run. -/
def c3row : OrderRow :=
  { order_id := 1, user_id := "u", total_amount := 1090,
    payment_method := "COD", delivery_address := "addr",
    payment_status := "Pending", order_status := "Pending",
    contest_id := "contest", lucky_number := ["0000007"],
    opt_out_delivery := false, razorpay_order_id := none,
    razorpay_payment_id := none }

/-- C3 (counterexample): when the lucky-number insert fails right after
the order header was inserted, `create_order`'s error handler
(src/routers.py 587-588) surfaces a 500 without deleting the header, so
the Order row of that attempt remains in the store. -/
theorem C3_rollback_counterexample :
    c3run.1 = Except.error (500, "Error creating order in DB") ∧
    c3run.2.orders = [c3row] ∧
    cdb.orders = [] := by
  refine ⟨?_, ?_, rfl⟩
  · norm_num [c3run, createOrderPersist, generate_unique_lucky_numbers, pad7,
      c3env, c3item, cdb, round2, roundPaise]
    all_goals decide
  · norm_num [c3run, createOrderPersist, generate_unique_lucky_numbers, pad7,
      c3env, c3item, c3row, cdb, round2, roundPaise]
    all_goals decide

/-- C3 (amended): after the order header insert succeeds, a failure of
order-item persistence or of payment-gateway order creation deletes the
just-created header before the error is surfaced, leaving the orders
table exactly as before; a lucky-number insert failure does not (see
the counterexample). -/
theorem C3_rollback_amended (env : Env) (db : DB) (userId : String)
    (method : String) (optOut : Bool) (addr : String)
    (validated : List CartItem) (grandTotal : ℚ)
    (hfresh : ∀ o ∈ db.orders, o.order_id ≠ db.next_order_id)
    (h1 : env.orderInsertFails = false)
    (h2 : env.luckyInsertFails = false)
    (hfail : env.itemInsertFails = true ∨
      (method = "Online" ∧ env.razorpayFails = true)) :
    isError (createOrderPersist env db userId method optOut addr
      validated grandTotal).1 = true ∧
    (createOrderPersist env db userId method optOut addr
      validated grandTotal).2.orders = db.orders := by
  have hdel : ∀ row : OrderRow, row.order_id = db.next_order_id →
      deleteOrder (db.orders ++ [row]) db.next_order_id = db.orders :=
    fun row hrow => deleteOrder_append_last db.orders row db.next_order_id hrow hfresh
  rcases hfail with hitem | ⟨hm, hrz⟩
  · constructor
    · simp only [createOrderPersist, h1, h2, hitem, Bool.false_and,
        Bool.false_eq_true, if_false, if_true]
      rfl
    · simp only [createOrderPersist, h1, h2, hitem, Bool.false_and,
        Bool.false_eq_true, if_false, if_true]
      exact hdel _ rfl
  · by_cases hitem : env.itemInsertFails
    · constructor
      · simp only [createOrderPersist, h1, h2, hitem, Bool.false_and,
          Bool.false_eq_true, if_false, if_true]
        rfl
      · simp only [createOrderPersist, h1, h2, hitem, Bool.false_and,
          Bool.false_eq_true, if_false, if_true]
        exact hdel _ rfl
    · rw [Bool.not_eq_true] at hitem
      constructor
      · simp only [createOrderPersist, h1, h2, hitem, hm, hrz, Bool.false_and,
          Bool.false_eq_true, if_false, if_true, if_pos rfl]
        rfl
      · simp only [createOrderPersist, h1, h2, hitem, hm, hrz, Bool.false_and,
          Bool.false_eq_true, if_false, if_true, if_pos rfl]
        exact hdel _ rfl

/-- An environment whose only failure is the order-items insert. -/
def w3env : Env := { luckyStream := [], itemInsertFails := true }

theorem C3_rollback_amended_witness :
    isError (createOrderPersist w3env cdb "u" "COD" false "addr" [] 49).1 = true ∧
    (createOrderPersist w3env cdb "u" "COD" false "addr" [] 49).2.orders =
      cdb.orders :=
  C3_rollback_amended w3env cdb "u" "COD" false "addr" [] 49
    (by intro o ho; cases ho) rfl rfl (Or.inl rfl)

/-! ### C2 -/

/-- In a successful persistence run, the stored order's lucky numbers
are exactly the draw performed with count
`int(total_amount // 1000)`, where `total_amount` is the pre-discount
sum of the line subtotals — independent of `grandTotal`. -/
lemma createOrderPersist_ok (env : Env) (db : DB) (userId : String)
    (method : String) (optOut : Bool) (addr : String)
    (validated : List CartItem) (grandTotal : ℚ) (row : OrderRow)
    (hfresh : ∀ o ∈ db.orders, o.order_id ≠ db.next_order_id)
    (h : (createOrderPersist env db userId method optOut addr
      validated grandTotal).1 = Except.ok row) :
    row.lucky_number = generate_unique_lucky_numbers
      (db.lucky_rows.map (·.lucky_number)) env.luckyStream
      ((⌊((validated.map (·.subtotal)).sum) / 1000⌋).toNat) := by
  have hnone : ∀ f : OrderRow → OrderRow, (∀ o, (f o).order_id = o.order_id) →
      List.find? ((fun o => o.order_id == db.next_order_id) ∘ f) db.orders = none := by
    intro f hf
    refine List.find?_eq_none.mpr ?_
    intro o ho
    simp [Function.comp, hf o, hfresh o ho]
  have hnone0 : List.find? (fun o => o.order_id == db.next_order_id) db.orders = none := by
    refine List.find?_eq_none.mpr ?_
    intro o ho
    simp [hfresh o ho]
  by_cases h1 : env.orderInsertFails
  · simp [createOrderPersist, h1] at h
  · by_cases h2 : env.luckyInsertFails &&
      !(generate_unique_lucky_numbers (db.lucky_rows.map (·.lucky_number))
        env.luckyStream ((⌊((validated.map (·.subtotal)).sum) / 1000⌋).toNat)).isEmpty
    · simp [createOrderPersist, h1, h2] at h
    · by_cases h3 : env.itemInsertFails
      · simp [createOrderPersist, h1, h2, h3] at h
      · by_cases h4 : method = "Online"
        · by_cases h5 : env.razorpayFails
          · simp [createOrderPersist, h1, h2, h3, h4, h5] at h
          · simp [createOrderPersist, h1, h2, h3, h4, h5] at h
            rw [hnone _ (fun o => by split_ifs <;> rfl)] at h
            simp at h
            rw [← h]
        · simp [createOrderPersist, h1, h2, h3, h4] at h
          rw [hnone0] at h
          simp at h
          rw [← h]

/-- C2 (amended): when the order is persisted, the number of lucky
numbers stored on it equals `floor(total_amount / 1000)` where
`total_amount` is the pre-discount sum of the line subtotals computed
at src/routers.py lines 521-523 — not the pricing engine's grand total
(`grandTotal` is universally quantified and does not appear in the
count).  The hypothesis `hdraw` says the random stream holds enough
fresh values for the draw to complete. -/
theorem C2_lucky_count_amended (env : Env) (db : DB) (userId : String)
    (method : String) (optOut : Bool) (addr : String)
    (validated : List CartItem) (grandTotal : ℚ) (row : OrderRow)
    (hfresh : ∀ o ∈ db.orders, o.order_id ≠ db.next_order_id)
    (hdraw : (generate_unique_lucky_numbers (db.lucky_rows.map (·.lucky_number))
        env.luckyStream ((⌊((validated.map (·.subtotal)).sum) / 1000⌋).toNat)).length =
      (⌊((validated.map (·.subtotal)).sum) / 1000⌋).toNat)
    (h : (createOrderPersist env db userId method optOut addr
      validated grandTotal).1 = Except.ok row) :
    row.lucky_number.length =
      (⌊((validated.map (·.subtotal)).sum) / 1000⌋).toNat := by
  rw [createOrderPersist_ok env db userId method optOut addr validated
    grandTotal row hfresh h, hdraw]

/-- The C2 cart item: one unit priced 960, brand 1. -/
def c2item : CartItem :=
  { brand_id := some 1, variant_id := 1, product_id := 1, quantity := 1,
    price_per_unit := 960, subtotal := 960, new_stock := 4 }

/-- The engine's result on the C2 cart: gst 48, no shipping, grand
total 1008. -/
def c2result : PricingResult :=
  { subtotal := 960, discount := 0, gst := 48, shipping_fee := 0,
    cod_fee := 0, total := 1008,
    brand_breakdown := [(1, { subtotal := 960, quantity := 1,
                              discount := 0, offer := none })] }

/-- The order row persisted for the C2 cart: zero lucky numbers. -/
def c2row : OrderRow :=
  { order_id := 1, user_id := "u", total_amount := 1008,
    payment_method := "Online", delivery_address := "addr",
    payment_status := "Pending", order_status := "Pending",
    contest_id := "contest", lucky_number := [], opt_out_delivery := false,
    razorpay_order_id := some "rzp_1", razorpay_payment_id := none }

/-- C2 (counterexample): for a cart with subtotal 960 the pricing
engine's grand total is 1008, so the claim demands
`floor(1008/1000) = 1` lucky number, but the persisted order stores
`int(960 // 1000) = 0` of them — the code counts from the pre-discount
subtotal sum, not the grand total. -/
theorem C2_lucky_count_counterexample :
    calculate_order_pricing "Online" [] [c2item] = Except.ok c2result ∧
    (createOrderPersist benignEnv cdb "u" "Online" false "addr"
      [c2item] 1008).1 = Except.ok c2row ∧
    c2row.lucky_number.length = 0 ∧
    (⌊c2result.total / 1000⌋).toNat = 1 ∧
    c2row.lucky_number.length < (⌊c2result.total / 1000⌋).toNat := by
  refine ⟨?_, ?_, rfl, ?_, ?_⟩
  · norm_num [calculate_order_pricing, priceFromGroups, groupByBrand,
      groupByBrandAux, insertBrand, applyOffer, fetchBrandOffers, bestOffer,
      finishTotals, round2, roundPaise, c2item, c2result]
    all_goals simp
  · norm_num [createOrderPersist, generate_unique_lucky_numbers, pad7,
      benignEnv, cdb, c2item, c2row, deductStock, deleteOrder, round2, roundPaise]
    all_goals decide
  · norm_num [c2result]
  · norm_num [c2result, c2row]

/-- The C2-witness cart item: two units at 1000, subtotal 2000. -/
def w2item : CartItem :=
  { brand_id := none, variant_id := 1, product_id := 1, quantity := 2,
    price_per_unit := 1000, subtotal := 2000, new_stock := 3 }

/-- The order row persisted for the witness cart: two lucky numbers. -/
def w2row : OrderRow :=
  { order_id := 1, user_id := "u", total_amount := 2205,
    payment_method := "COD", delivery_address := "addr",
    payment_status := "Pending", order_status := "Pending",
    contest_id := "contest", lucky_number := ["0000000", "0000001"],
    opt_out_delivery := false, razorpay_order_id := none,
    razorpay_payment_id := none }

theorem C2_lucky_count_amended_witness :
    (generate_unique_lucky_numbers (cdb.lucky_rows.map (·.lucky_number))
        benignEnv.luckyStream ((⌊(([w2item].map (·.subtotal)).sum) / 1000⌋).toNat)).length =
      (⌊(([w2item].map (·.subtotal)).sum) / 1000⌋).toNat ∧
    w2row.lucky_number.length = (⌊(([w2item].map (·.subtotal)).sum) / 1000⌋).toNat := by
  have hdraw : (generate_unique_lucky_numbers (cdb.lucky_rows.map (·.lucky_number))
      benignEnv.luckyStream ((⌊(([w2item].map (·.subtotal)).sum) / 1000⌋).toNat)).length =
      (⌊(([w2item].map (·.subtotal)).sum) / 1000⌋).toNat := by
    norm_num [generate_unique_lucky_numbers, pad7, cdb, benignEnv, w2item]
    all_goals decide
  have hrun : (createOrderPersist benignEnv cdb "u" "COD" false "addr"
      [w2item] 2205).1 = Except.ok w2row := by
    norm_num [createOrderPersist, generate_unique_lucky_numbers, pad7,
      benignEnv, cdb, w2item, w2row, deductStock, deleteOrder, round2, roundPaise]
    all_goals simp
    all_goals decide
  exact ⟨hdraw, C2_lucky_count_amended benignEnv cdb "u" "COD" false "addr"
    [w2item] 2205 w2row (by intro o ho; cases ho) hdraw hrun⟩
